import Mathlib

/-!
Verification of the JobFinder crawl-and-orchestrate pipeline.

This file gives a shallow embedding, in Lean 4, of the core crawler code
(src/crawler/workday.py) and the run orchestrator (src/app.py), and proves
the frozen claims about them.  Pure Python functions become Lean functions;
the HTTP layer is modelled by passing in the sequence of outcomes the remote
service would produce for each request; exceptions become Except values;
machine-level concerns (threads, sleeps) are modelled by explicit traces
(lists of wait durations, ordered processing of the worker inputs).
-/

namespace JobFinder

/- ── Basic string helpers (all structural, so the kernel can evaluate them) ── -/

/-- Splits a list of characters on a separator character.  Models the
behaviour of Python str.split(sep) for a single-character separator. -/
def splitOnChar (sep : Char) : List Char → List (List Char)
  | [] => [[]]
  | c :: cs =>
    let r := splitOnChar sep cs
    if c = sep then [] :: r
    else
      match r with
      | [] => [[c]]
      | g :: gs => (c :: g) :: gs

/-- True when the first list occurs at the head of the second. -/
def leadsWith : List Char → List Char → Bool
  | [], _ => true
  | _ :: _, [] => false
  | a :: as, b :: bs => a = b && leadsWith as bs

/-- True when the first list occurs contiguously inside the second.
Models the Python expression needle in haystack on strings. -/
def containsSub (needle : List Char) : List Char → Bool
  | [] => needle.isEmpty
  | c :: cs => leadsWith needle (c :: cs) || containsSub needle cs

/-- Strips leading and trailing whitespace.  Models Python str.strip(). -/
def trimChars (cs : List Char) : List Char :=
  ((cs.dropWhile Char.isWhitespace).reverse.dropWhile Char.isWhitespace).reverse

/-- First n characters of a string.  Models the Python slice s[:n]. -/
def takeStr (n : Nat) (s : String) : String :=
  String.mk (s.toList.take n)

/- ── Calendar dates and the ISO date parser ── -/

/-- A calendar date, as produced by datetime.date in Python. -/
structure Date where
  year : Nat
  month : Nat
  day : Nat
deriving DecidableEq, Repr

def isLeapYear (y : Nat) : Bool :=
  (y % 4 = 0 && y % 100 ≠ 0) || y % 400 = 0

def daysInMonth (y m : Nat) : Nat :=
  if m = 2 then (if isLeapYear y then 29 else 28)
  else if m = 4 || m = 6 || m = 9 || m = 11 then 30
  else 31

def digitVal (c : Char) : Option Nat :=
  if c.isDigit then some (c.toNat - 48) else none

/-- Modelled from the library: Python datetime.fromisoformat restricted to
date-only strings of the exact form YYYY-MM-DD (the form the platform emits
for startDate).  Returns the calendar date when the string is well formed
and denotes a valid date; any other string is unparseable (a ValueError in
Python).  Longer datetime strings are treated as unparseable here. -/
def fromisoformat (s : String) : Option Date :=
  match s.toList with
  | [y1, y2, y3, y4, h1, m1, m2, h2, d1, d2] =>
    if h1 = '-' && h2 = '-' then
      match digitVal y1, digitVal y2, digitVal y3, digitVal y4,
            digitVal m1, digitVal m2, digitVal d1, digitVal d2 with
      | some a, some b, some c, some d, some e, some f, some g, some h =>
        let y := ((a * 10 + b) * 10 + c) * 10 + d
        let m := e * 10 + f
        let dd := g * 10 + h
        if 1 ≤ y && 1 ≤ m && m ≤ 12 && 1 ≤ dd && dd ≤ daysInMonth y m then
          some ⟨y, m, dd⟩
        else none
      | _, _, _, _, _, _, _, _ => none
    else none
  | _ => none

/- ── URL parsing: SiteResolver (src/crawler/workday.py lines 17-47) ── -/

def isSchemeChar (c : Char) : Bool :=
  c.isAlpha || c.isDigit || c = '+' || c = '-' || c = '.'

def validScheme : List Char → Bool
  | [] => false
  | c :: rest => c.isAlpha && rest.all isSchemeChar

/-- Drops a leading scheme: prefix when one is present, as
urllib.parse.urlparse does. -/
def splitScheme (cs : List Char) : List Char :=
  let pre := cs.takeWhile (fun c => c ≠ ':')
  if pre.length < cs.length && validScheme pre then
    cs.drop (pre.length + 1)
  else cs

/-- Splits the remainder into (netloc, rest): the netloc is present exactly
when the string begins with two slashes, and extends to the first slash,
question mark or hash, as in urllib.parse.urlparse. -/
def netlocAndPath (cs : List Char) : List Char × List Char :=
  if cs.take 2 = ['/', '/'] then
    let rest := cs.drop 2
    let netloc := rest.takeWhile (fun c => c ≠ '/' && c ≠ '?' && c ≠ '#')
    (netloc, rest.drop netloc.length)
  else ([], cs)

/-- The path component: everything before the first question mark or hash. -/
def stripQueryFrag (cs : List Char) : List Char :=
  cs.takeWhile (fun c => c ≠ '?' && c ≠ '#')

/-- The hostname of a netloc: the part after the last at sign and before the
first colon, lowercased; None when empty.  Models the hostname property of
urllib.parse.urlparse results (bracketed IPv6 hosts are not modelled). -/
def hostnameOfNetloc (netloc : List Char) : Option String :=
  let afterAt := (netloc.reverse.takeWhile (fun c => c ≠ '@')).reverse
  let host := (afterAt.takeWhile (fun c => c ≠ ':')).map Char.toLower
  if host = [] then none else some (String.mk host)

/-- Modelled from the library: urllib.parse.urlparse(url), reduced to the
two pieces the resolver reads: the hostname (or none) and the path. -/
def urlParts (url : String) : Option String × String :=
  let cs := splitScheme url.toList
  let np := netlocAndPath cs
  (hostnameOfNetloc np.1, String.mk (stripQueryFrag np.2))

/-- Matches the tenant pattern of src/crawler/workday.py line 34:
the host must consist of exactly tenant.wdN.myworkdayjobs.com where
tenant is nonempty and free of dots and N is one or more digits;
returns the tenant on success. -/
def tenantMatch (host : String) : Option String :=
  match splitOnChar '.' host.toList with
  | [t, w, m, c] =>
    if t ≠ [] && leadsWith ['w', 'd'] w && w.drop 2 ≠ [] &&
        (w.drop 2).all Char.isDigit &&
        m = "myworkdayjobs".toList && c = "com".toList then
      some (String.mk t)
    else none
  | _ => none

/-- Matches the locale-segment pattern of src/crawler/workday.py line 42:
two lowercase letters, a hyphen, two uppercase letters, and nothing else. -/
def isLocaleSeg (s : String) : Bool :=
  match s.toList with
  | [a, b, h, c, d] => a.isLower && b.isLower && h = '-' && c.isUpper && d.isUpper
  | _ => false

/-- The coordinates extracted from a Workday careers URL. -/
structure SiteCoordinates where
  host : String
  tenant : String
  site : String
deriving DecidableEq, Repr

/-- The hostname component of the stripped URL, as the resolver sees it. -/
def urlHost (url : String) : Option String :=
  (urlParts (String.mk (trimChars url.toList))).1

/-- The path component of the stripped URL, as the resolver sees it. -/
def urlPathStr (url : String) : String :=
  (urlParts (String.mk (trimChars url.toList))).2

/-- The non-locale path segments of a URL, in order: the path is split on
slashes, empty segments are discarded, and locale segments are skipped. -/
def nonLocaleSegs (url : String) : List String :=
  (((splitOnChar '/' (urlPathStr url).toList).map
      String.mk).filter (fun p => p ≠ "")).filter (fun p => isLocaleSeg p = false)

/-- Embeds parse_workday_url (src/crawler/workday.py lines 17-47): extract
host, tenant and site from a Workday careers URL, or None. -/
def parse_workday_url (url : String) : Option SiteCoordinates :=
  match urlHost url with
  | none => none
  | some host =>
    if containsSub "myworkdayjobs.com".toList host.toList = false then none
    else
      match tenantMatch host with
      | none => none
      | some tenant =>
        match nonLocaleSegs url with
        | [] => none
        | site :: _ => some ⟨host, tenant, site⟩

/- ── RetryingClient (src/crawler/workday.py lines 58-88) ── -/

/-- What the network does on one attempt of a request: the response parses
as JSON (success), raise_for_status raises an HTTPError with the given
status code, or a transport-level RequestException with the given message
is raised (timeout, connection error, and similar). -/
inductive Attempt (α : Type) where
  | success : α → Attempt α
  | httpError : Nat → Attempt α
  | transportError : String → Attempt α
deriving DecidableEq, Repr

/-- An error escaping the request function: a re-raised HTTPError or a
re-raised transport-level RequestException. -/
inductive ReqError where
  | http : Nat → ReqError
  | transport : String → ReqError
deriving DecidableEq, Repr

deriving instance DecidableEq for Except

/-- The observable behaviour of one call to the request function: its
result (ok none models the Python return None reached when the retry loop
ends without success), how many attempts were consumed, and the sequence of
backoff sleeps performed, in seconds and in order. -/
structure RetryTrace (α : Type) where
  result : Except ReqError (Option α)
  attemptsMade : Nat
  waits : List Nat
deriving DecidableEq, Repr

/-- In the source MAX_RETRIES = 3 (src/crawler/workday.py line 60). -/
def MAX_RETRIES : Nat := 3

/-- One step of the retry loop of _request_with_retry: k is the 0-indexed
attempt number, fuel the number of loop iterations left (MAX_RETRIES - k),
ws the sleeps already performed.  Mirrors src/crawler/workday.py lines
69-88: a retryable HTTP status (429 or at least 500) sleeps 2 ^ k * 2 and
continues; any other HTTPError re-raises at once; a transport error sleeps
and re-raises only when it happened on the final attempt; a loop that runs
out of attempts falls through to return None. -/
def retryGo (attempts : Nat → Attempt α) : Nat → Nat → List Nat → RetryTrace α
  | k, 0, ws => ⟨.ok none, k, ws⟩
  | k, fuel + 1, ws =>
    match attempts k with
    | .success a => ⟨.ok (some a), k + 1, ws⟩
    | .httpError s =>
      if s = 429 ∨ 500 ≤ s then
        retryGo attempts (k + 1) fuel (ws ++ [2 ^ k * 2])
      else ⟨.error (.http s), k + 1, ws⟩
    | .transportError m =>
      if fuel = 0 then ⟨.error (.transport m), k + 1, ws ++ [2 ^ k * 2]⟩
      else retryGo attempts (k + 1) fuel (ws ++ [2 ^ k * 2])

/-- Embeds _request_with_retry (src/crawler/workday.py lines 64-88), with
the network modelled by the outcome each attempt would observe. -/
def request_with_retry (attempts : Nat → Attempt α) : RetryTrace α :=
  retryGo attempts 0 MAX_RETRIES []

/-- An attempt outcome the retry loop retries on: HTTP 429, HTTP at least
500, or a transport-level failure. -/
def retryableAttempt (a : Attempt α) : Prop :=
  (∃ s, a = .httpError s ∧ (s = 429 ∨ 500 ≤ s)) ∨ ∃ m, a = .transportError m

/-- An attempt outcome that is a retryable HTTP status. -/
def retryableHttpAttempt (a : Attempt α) : Prop :=
  ∃ s, a = .httpError s ∧ (s = 429 ∨ 500 ≤ s)

/- ── Listing discovery and pagination (src/crawler/workday.py 91-158) ── -/

/-- A job card returned by the discovery endpoint.  A field holding none
models a missing key in the underlying JSON dictionary. -/
structure Listing where
  externalPath : Option String
  title : Option String
  locationsText : Option String
  postedOn : Option String
deriving DecidableEq, Repr

/-- One discovery response body: the total item count and the page of job
cards, as in the response shape of fetch_listings. -/
structure ListingPage where
  total : Nat
  jobPostings : List Listing
deriving DecidableEq, Repr

/-- What one discovery page request yields at the pagination level: json
none when the request returned no usable data (Python None, or a body
without a jobPostings key), json (some page) on success, or raise when the
request raised an exception. -/
inductive FetchOutcome where
  | json : Option ListingPage → FetchOutcome
  | raise : String → FetchOutcome
deriving DecidableEq, Repr

/-- The collection predicate of src/crawler/workday.py lines 133-134 and
146: the postedOn label must equal the exact string Posted Today (a missing
label defaults to the empty string). -/
def isToday (l : Listing) : Bool :=
  l.postedOn.getD "" = "Posted Today"

/-- A human-readable message for a raised request error, used where the
Python exception object would propagate. -/
def reqErrorMsg : ReqError → String
  | .http s => "HTTP " ++ Nat.repr s
  | .transport m => m

/-- Lifts the result of one full request (with retries) to the outcome seen
by the pagination loop: an exhausted retryable-HTTP loop returned None, a
success returned the parsed body, and a raised exception propagates. -/
def pageOutcome (attempts : Nat → Attempt (Option ListingPage)) : FetchOutcome :=
  match (request_with_retry attempts).result with
  | .ok none => .json none
  | .ok (some d) => .json d
  | .error e => .raise (reqErrorMsg e)

/-- The loop body of fetch_all_listings (src/crawler/workday.py lines
119-155), with the remote modelled as the list of outcomes of the page
requests issued at offsets 0, pageSize, 2 * pageSize, and so on.  State:
the current offset, the total learned from the first page (none until
learned), and the cards collected so far.  An exhausted response list
behaves like a request that returned no data. -/
def fetchAllGo (pageSize : Nat) :
    List FetchOutcome → Nat → Option Nat → List Listing → Except String (List Listing)
  | [], _, _, acc => .ok acc
  | .raise e :: _, _, _, _ => .error e
  | .json none :: _, _, _, acc => .ok acc
  | .json (some page) :: rest, offset, tot?, acc =>
    let tot := tot?.getD page.total
    if page.jobPostings = [] then .ok acc
    else
      let acc2 := acc ++ page.jobPostings.filter isToday
      let offset2 := offset + pageSize
      if (page.jobPostings.filter isToday).length = 0 ∧ offset2 > pageSize then .ok acc2
      else if tot ≤ offset2 then .ok acc2
      else fetchAllGo pageSize rest offset2 (some tot) acc2

/-- Embeds fetch_all_listings (src/crawler/workday.py lines 107-158). -/
def fetch_all_listings (pageSize : Nat) (responses : List FetchOutcome) :
    Except String (List Listing) :=
  fetchAllGo pageSize responses 0 none []

/- ── Detail enrichment (src/crawler/workday.py lines 161-262) ── -/

/-- The jobPostingInfo dictionary returned by fetch_job_detail, reduced to
the keys _fetch_one_detail reads.  A field holding none models a missing
key; nested dictionaries (country, jobRequisitionLocation) are abstracted
to strings. -/
structure Detail where
  title : Option String
  location : Option String
  additionalLocations : Option (List String)
  postedOn : Option String
  startDate : Option String
  country : Option String
  jobRequisitionLocation : Option String
  jobReqId : Option String
  jobPostingId : Option String
  jd_plain_text : Option String
  externalUrl : Option String
  timeType : Option String
deriving DecidableEq, Repr

/-- The enriched record _fetch_one_detail builds (src/crawler/workday.py
lines 211-225), field for field. -/
structure JobRecord where
  title : String
  external_path : String
  locations_text : String
  additional_locations : List String
  posted_label : String
  start_date : Option String
  country : String
  job_requisition_location : String
  job_req_id : String
  job_posting_id : String
  jd_text : String
  job_url : String
  time_type : String
deriving DecidableEq, Repr

/-- The record construction of src/crawler/workday.py lines 211-225: each
detail field falls back to the listing field, then to a default, exactly as
the chained dict.get calls do. -/
def buildRecord (d : Detail) (l : Listing) (path : String) : JobRecord where
  title := d.title.getD (l.title.getD "")
  external_path := path
  locations_text := d.location.getD (l.locationsText.getD "")
  additional_locations := d.additionalLocations.getD []
  posted_label := d.postedOn.getD (l.postedOn.getD "")
  start_date := d.startDate
  country := d.country.getD ""
  job_requisition_location := d.jobRequisitionLocation.getD ""
  job_req_id := d.jobReqId.getD ""
  job_posting_id := d.jobPostingId.getD ""
  jd_text := d.jd_plain_text.getD ""
  job_url := d.externalUrl.getD ""
  time_type := d.timeType.getD ""

/-- Embeds _fetch_one_detail (src/crawler/workday.py lines 189-228).  The
fetch is modelled by its outcome: error means fetch_job_detail raised, ok
none means it returned None (no data or no jobPostingInfo key).  The
enclosing try block catches every exception, so a missing externalPath key
on the listing (a KeyError in Python) and a raised fetch both yield none.
The secondary date check of lines 198-209: a present, nonempty startDate
that parses to a date other than today drops the stub; an unparseable or
absent startDate leaves the record in, relying on the discovery label. -/
def fetch_one_detail (fetchRes : Except String (Option Detail)) (listing : Listing)
    (today : Date) : Option JobRecord :=
  match listing.externalPath with
  | none => none
  | some path =>
    match fetchRes with
    | .error _ => none
    | .ok none => none
    | .ok (some detail) =>
      match detail.startDate with
      | some s =>
        if s ≠ "" then
          match fromisoformat s with
          | some dt =>
            if dt ≠ today then none else some (buildRecord detail listing path)
          | none => some (buildRecord detail listing path)
        else some (buildRecord detail listing path)
      | none => some (buildRecord detail listing path)

/-- Result of the detail phase of crawl_company: the enriched records in
completion order and the number of completions reported. -/
structure DetailLoopRes where
  enriched : List JobRecord
  done : Nat
deriving DecidableEq, Repr

/-- The worker-pool loop of crawl_company (src/crawler/workday.py lines
247-260): every stub is submitted, each completion appends its record when
one was produced and bumps the done counter either way.  Completion order
is unspecified in the source; the model processes stubs in list order.  The
environment env gives the fetch outcome each stub would observe. -/
def crawlDetailsGo (env : Listing → Except String (Option Detail)) (today : Date) :
    List Listing → List JobRecord → Nat → DetailLoopRes
  | [], acc, done => ⟨acc, done⟩
  | l :: rest, acc, done =>
    let acc2 :=
      match fetch_one_detail (env l) l today with
      | some r => acc ++ [r]
      | none => acc
    crawlDetailsGo env today rest acc2 (done + 1)

/-- Embeds the detail-enrichment stage of crawl_company (src/crawler/
workday.py lines 241-262) applied to an already-fetched stub list. -/
def crawl_company_details (env : Listing → Except String (Option Detail))
    (listings : List Listing) (today : Date) : List JobRecord :=
  (crawlDetailsGo env today listings [] 0).enriched

/- ── Run orchestrator (src/app.py lines 157-343) ── -/

/-- What crawl_company does for one employer: returns this many enriched
jobs, or raises with this message. -/
inductive CrawlOutcome where
  | jobs : Nat → CrawlOutcome
  | raises : String → CrawlOutcome
deriving DecidableEq, Repr

/-- What the stages after the crawl (filtering, scoring, the batch DB
write) do for one employer: they complete with this many records written,
or raise with this message. -/
inductive PostCrawlOutcome where
  | returns : Nat → PostCrawlOutcome
  | raises : String → PostCrawlOutcome
deriving DecidableEq, Repr

/-- One configured employer, together with the behaviour its scan would
exhibit: the career-site URL (resolved by parse_workday_url), the crawl
outcome and the post-crawl outcome. -/
structure Company where
  company_name : String
  workday_url : String
  crawl : CrawlOutcome
  post : PostCrawlOutcome
deriving DecidableEq, Repr

/-- The live in-memory run state _active_runs[run_id] (src/app.py lines
266-275), reduced to the fields the claims concern; the human-readable
phase and current-company strings are not modelled. -/
structure RunLive where
  status : String
  jobs_found : Nat
  jobs_returned : Nat
  errors : List String
  companies_done : Nat
deriving DecidableEq, Repr

/-- The durable run record written by db.update_run at finalization,
reduced to the fields the claims concern.  The totals default to 0 when a
finalization does not set them, matching the DB column defaults. -/
structure PersistedRun where
  status : String
  total_jobs_found : Nat
  total_jobs_returned : Nat
  error_log : Option String
deriving DecidableEq, Repr

/-- The outcome of one call to _scan_one_company: the updated live state,
the (found, returned) pair handed back, the per-company status written via
db.update_company_run_status, and whether crawl_company was invoked. -/
structure ScanRes where
  live : RunLive
  found : Nat
  returned : Nat
  statusWrite : String
  crawlAttempted : Bool
deriving DecidableEq, Repr

/-- Embeds _scan_one_company (src/app.py lines 157-260).  URL resolution
failure records invalid_url and contributes nothing; an exception raised by
the crawl or by any later stage is caught by the enclosing except block,
which appends a run-level error entry, writes an error status truncated to
100 characters, and returns (0, 0).  The live jobs_found counter is bumped
by the crawled count as soon as the crawl returns (line 182), before
filtering, and is never rolled back; jobs_returned is bumped only on full
success (line 250).  The status writes themselves are modelled as pure. -/
def scanOneCompany (live : RunLive) (c : Company) : ScanRes :=
  match parse_workday_url c.workday_url with
  | none =>
    ⟨{ live with
        errors := live.errors ++
          [c.company_name ++ ": Invalid Workday URL: " ++ c.workday_url] },
      0, 0, "invalid_url", false⟩
  | some _ =>
    match c.crawl with
    | .raises e =>
      ⟨{ live with errors := live.errors ++ [c.company_name ++ ": " ++ e] },
        0, 0, "error: " ++ takeStr 100 e, true⟩
    | .jobs found =>
      let live2 := { live with jobs_found := live.jobs_found + found }
      match c.post with
      | .raises e =>
        ⟨{ live2 with errors := live2.errors ++ [c.company_name ++ ": " ++ e] },
          0, 0, "error: " ++ takeStr 100 e, true⟩
      | .returns ret =>
        ⟨{ live2 with jobs_returned := live2.jobs_returned + ret },
          found, ret, "success", true⟩

/-- The accumulated result of the employer loop of _run_scanner: the live
state, the running totals, the per-company status writes in order, and how
many crawls were invoked. -/
structure LoopRes where
  live : RunLive
  totalFound : Nat
  totalReturned : Nat
  statusWrites : List String
  crawls : Nat
deriving DecidableEq, Repr

/-- The employer loop of _run_scanner (src/app.py lines 314-321): scan each
company in order, accumulate its (found, returned) into the run totals, and
bump companies_done after each. -/
def runLoop : List Company → RunLive → Nat → Nat → List String → Nat → LoopRes
  | [], live, tf, tr, ws, ca => ⟨live, tf, tr, ws, ca⟩
  | c :: cs, live, tf, tr, ws, ca =>
    let r := scanOneCompany live c
    runLoop cs { r.live with companies_done := r.live.companies_done + 1 }
      (tf + r.found) (tr + r.returned) (ws ++ [r.statusWrite])
      (ca + (if r.crawlAttempted then 1 else 0))

/-- Joins strings with a separator. -/
def joinWith (sep : String) : List String → String
  | [] => ""
  | [s] => s
  | s :: rest => s ++ sep ++ joinWith sep rest

/-- Models json.dumps applied to the run-level error list (character
escaping inside the entries is not modelled). -/
def serializeErrors (errs : List String) : String :=
  "[" ++ joinWith ", " (errs.map (fun e => "\"" ++ e ++ "\"")) ++ "]"

/-- The full observable outcome of one run: final live state, persisted run
record, per-company status writes, and number of crawls invoked. -/
structure RunOutcome where
  live : RunLive
  persisted : PersistedRun
  statusWrites : List String
  crawls : Nat
deriving DecidableEq, Repr

/-- Embeds _run_scanner (src/app.py lines 263-342).  The preconditions are
checked up front in source order: no companies, then no resume (the
reference profile); either one finalizes the run as error with the
corresponding message and touches no employer.  Otherwise every company is
scanned in order and the run finalizes as done, persisting the accumulated
totals and the serialized error list (none when empty). -/
def run_scanner (companies : List Company) (resume : Option Unit) : RunOutcome :=
  let live0 : RunLive := ⟨"running", 0, 0, [], 0⟩
  if companies = [] then
    ⟨{ live0 with status := "error" },
      ⟨"error", 0, 0, some "No companies loaded"⟩, [], 0⟩
  else
    match resume with
    | none =>
      ⟨{ live0 with status := "error" },
        ⟨"error", 0, 0, some "No resume uploaded"⟩, [], 0⟩
    | some _ =>
      let r := runLoop companies live0 0 0 [] 0
      ⟨{ r.live with status := "done" },
        ⟨"done", r.totalFound, r.totalReturned,
          if r.live.errors = [] then none else some (serializeErrors r.live.errors)⟩,
        r.statusWrites, r.crawls⟩

/- ── Spec-side pagination descriptions (for comparison with the code) ── -/

/-- Written from the amended claim wording: paginate, keeping from each
page exactly the items labeled Posted Today, and stop when the page is
empty, when a nonempty page after the first contains zero today-labeled
items, or when the offset (here pagesDone + 1 pages of pageSize items) has
reached the total learned from the first page.  A failed page request that
yielded no data ends pagination normally; a raised one propagates. -/
def discoverSpecGo (pageSize : Nat) :
    List FetchOutcome → Nat → Option Nat → Except String (List Listing)
  | [], _, _ => .ok []
  | .raise e :: _, _, _ => .error e
  | .json none :: _, _, _ => .ok []
  | .json (some page) :: rest, pagesDone, tot? =>
    let tot := tot?.getD page.total
    let todays := page.jobPostings.filter isToday
    if page.jobPostings = [] then .ok []
    else if todays = [] ∧ 1 ≤ pagesDone then .ok todays
    else if tot ≤ (pagesDone + 1) * pageSize then .ok todays
    else Except.map (fun more => todays ++ more)
      (discoverSpecGo pageSize rest (pagesDone + 1) (some tot))

/-- The spec-side paginator at its entry point. -/
def discoverTodaysSpec (pageSize : Nat) (responses : List FetchOutcome) :
    Except String (List Listing) :=
  discoverSpecGo pageSize responses 0 none

/-- Written from the claim as frozen: identical to discoverSpecGo except
that the early stop after the first page requires a full page (exactly
pageSize items) with zero today-labeled items, as the claim states. -/
def discoverFullPageGo (pageSize : Nat) :
    List FetchOutcome → Nat → Option Nat → Except String (List Listing)
  | [], _, _ => .ok []
  | .raise e :: _, _, _ => .error e
  | .json none :: _, _, _ => .ok []
  | .json (some page) :: rest, pagesDone, tot? =>
    let tot := tot?.getD page.total
    let todays := page.jobPostings.filter isToday
    if page.jobPostings = [] then .ok []
    else if todays = [] ∧ 1 ≤ pagesDone ∧ page.jobPostings.length = pageSize then
      .ok todays
    else if tot ≤ (pagesDone + 1) * pageSize then .ok todays
    else Except.map (fun more => todays ++ more)
      (discoverFullPageGo pageSize rest (pagesDone + 1) (some tot))

/-- The claim-side full-page paginator at its entry point. -/
def discoverTodaysFullPage (pageSize : Nat) (responses : List FetchOutcome) :
    Except String (List Listing) :=
  discoverFullPageGo pageSize responses 0 none

/- ── Expected per-company behaviour (for the orchestrator theorems) ── -/

/-- The status _scan_one_company writes for a company, by cases on where
its scan fails. -/
def expectedWrite (c : Company) : String :=
  match parse_workday_url c.workday_url with
  | none => "invalid_url"
  | some _ =>
    match c.crawl with
    | .raises e => "error: " ++ takeStr 100 e
    | .jobs _ =>
      match c.post with
      | .raises e => "error: " ++ takeStr 100 e
      | .returns _ => "success"

/-- The run-level error entry a company contributes, when any. -/
def expectedError (c : Company) : Option String :=
  match parse_workday_url c.workday_url with
  | none => some (c.company_name ++ ": Invalid Workday URL: " ++ c.workday_url)
  | some _ =>
    match c.crawl with
    | .raises e => some (c.company_name ++ ": " ++ e)
    | .jobs _ =>
      match c.post with
      | .raises e => some (c.company_name ++ ": " ++ e)
      | .returns _ => none

/-- What a company adds to the persisted found total: its crawled count
when its whole scan succeeded, otherwise 0. -/
def contribFound (c : Company) : Nat :=
  match parse_workday_url c.workday_url, c.crawl, c.post with
  | some _, .jobs n, .returns _ => n
  | _, _, _ => 0

/-- What a company adds to the persisted returned total. -/
def contribReturned (c : Company) : Nat :=
  match parse_workday_url c.workday_url, c.crawl, c.post with
  | some _, .jobs _, .returns r => r
  | _, _, _ => 0

/-- What a company adds to the live jobs_found counter: its crawled count
whenever the crawl itself returned, even when a later stage raised. -/
def liveFound (c : Company) : Nat :=
  match parse_workday_url c.workday_url, c.crawl with
  | some _, .jobs n => n
  | _, _ => 0

/-- What a company adds to the live jobs_returned counter. -/
def liveReturned (c : Company) : Nat :=
  contribReturned c

/-- Whether the scan of a company invokes crawl_company at all. -/
def crawlCount (c : Company) : Nat :=
  match parse_workday_url c.workday_url with
  | none => 0
  | some _ => 1

/- ════════════════ Theorems ════════════════ -/

/- ── C1: the secondary date check of the detail enricher ── -/

lemma fromisoformat_empty : fromisoformat "" = none := rfl

/-- Claim C1: for every listing stub processed by the detail enricher with
a given reference date, if the detail response startDate field is present
and parses as an ISO date whose calendar date differs from the reference
date, no JobRecord is emitted for that stub, whatever the discovery label
was; if startDate is absent, empty or unparseable, the record is kept on
the strength of the discovery-stage label alone; and a startDate equal to
the reference date also keeps the record. -/
theorem claim_C1_secondary_date_check
    (d : Detail) (l : Listing) (p : String) (today : Date)
    (hp : l.externalPath = some p) :
    (∀ s dt, d.startDate = some s → fromisoformat s = some dt → dt ≠ today →
      fetch_one_detail (.ok (some d)) l today = none) ∧
    ((d.startDate = none ∨ d.startDate = some "" ∨
        (∃ s, d.startDate = some s ∧ fromisoformat s = none)) →
      fetch_one_detail (.ok (some d)) l today = some (buildRecord d l p)) ∧
    (∀ s dt, d.startDate = some s → fromisoformat s = some dt → dt = today →
      fetch_one_detail (.ok (some d)) l today = some (buildRecord d l p)) := by
  refine ⟨?_, ?_, ?_⟩
  · intro s dt hs hparse hne
    have hse : s ≠ "" := by
      intro h
      rw [h, fromisoformat_empty] at hparse
      exact Option.noConfusion hparse
    simp [fetch_one_detail, hp, hs, hse, hparse, hne]
  · intro hcases
    rcases hcases with h | h | ⟨s, hs, hparse⟩
    · simp [fetch_one_detail, hp, h]
    · simp [fetch_one_detail, hp, h]
    · by_cases hse : s = ""
      · simp [fetch_one_detail, hp, hs, hse]
      · simp [fetch_one_detail, hp, hs, hse, hparse]
  · intro s dt hs hparse heq
    have hse : s ≠ "" := by
      intro h
      rw [h, fromisoformat_empty] at hparse
      exact Option.noConfusion hparse
    simp [fetch_one_detail, hp, hs, hse, hparse, heq]

/-- A detail response whose startDate is the day before the reference date,
while its posted label still reads Posted Today. -/
def detailStale : Detail :=
  ⟨some "Engineer", none, none, some "Posted Today", some "2024-05-01",
    none, none, none, none, some "jd text", none, none⟩

/-- A detail response with an unparseable startDate. -/
def detailGarbled : Detail :=
  ⟨some "Engineer", none, none, some "Posted Today", some "not-a-date",
    none, none, none, none, some "jd text", none, none⟩

/-- A listing stub labeled Posted Today. -/
def stubToday : Listing :=
  ⟨some "/job/SJ/Engineer_R1", some "Engineer", some "San Jose", some "Posted Today"⟩

theorem claim_C1_witness :
    stubToday.externalPath = some "/job/SJ/Engineer_R1" ∧
    detailStale.startDate = some "2024-05-01" ∧
    fromisoformat "2024-05-01" = some ⟨2024, 5, 1⟩ ∧
    fetch_one_detail (.ok (some detailStale)) stubToday ⟨2024, 5, 2⟩ = none ∧
    fromisoformat "not-a-date" = none ∧
    fetch_one_detail (.ok (some detailGarbled)) stubToday ⟨2024, 5, 2⟩ =
      some (buildRecord detailGarbled stubToday "/job/SJ/Engineer_R1") := by
  refine ⟨rfl, rfl, by decide, ?_, by decide, ?_⟩
  · exact (claim_C1_secondary_date_check detailStale stubToday "/job/SJ/Engineer_R1"
      ⟨2024, 5, 2⟩ rfl).1 "2024-05-01" ⟨2024, 5, 1⟩ rfl (by decide) (by decide)
  · exact (claim_C1_secondary_date_check detailGarbled stubToday "/job/SJ/Engineer_R1"
      ⟨2024, 5, 2⟩ rfl).2.1 (Or.inr (Or.inr ⟨"not-a-date", rfl, by decide⟩))

/- ── C9: worker failures drop one stub without disturbing the rest ── -/

lemma crawlDetailsGo_spec (env : Listing → Except String (Option Detail))
    (today : Date) :
    ∀ (listings : List Listing) (acc : List JobRecord) (done : Nat),
      crawlDetailsGo env today listings acc done =
        ⟨acc ++ listings.filterMap (fun l => fetch_one_detail (env l) l today),
          done + listings.length⟩ := by
  intro listings
  induction listings with
  | nil => intro acc done; simp [crawlDetailsGo]
  | cons l rest ih =>
    intro acc done
    rw [crawlDetailsGo]
    cases h : fetch_one_detail (env l) l today with
    | none => simp [h, ih, List.filterMap_cons, Nat.add_assoc, Nat.add_comm 1]
    | some r => simp [h, ih, List.filterMap_cons, Nat.add_assoc, Nat.add_comm 1]

/-- Claim C9: a failure inside one detail-fetch worker, whether the fetch
raised, the fetch yielded no usable payload, or the listing lacked the
expected externalPath key, makes that worker return nothing, so only that
one stub is dropped; the loop still processes every stub, reports one
completion per stub, and returns the records of all successfully enriched
stubs; removing one failing stub from the input leaves the output
unchanged. -/
theorem claim_C9_worker_failure_isolated
    (env : Listing → Except String (Option Detail)) (today : Date) :
    (∀ l, ((∃ e, env l = .error e) ∨ env l = .ok none ∨ l.externalPath = none) →
      fetch_one_detail (env l) l today = none) ∧
    (∀ listings, crawl_company_details env listings today =
      listings.filterMap (fun l => fetch_one_detail (env l) l today)) ∧
    (∀ listings, (crawlDetailsGo env today listings [] 0).done = listings.length) ∧
    (∀ pre post l, fetch_one_detail (env l) l today = none →
      crawl_company_details env (pre ++ l :: post) today =
        crawl_company_details env (pre ++ post) today) := by
  have hform : ∀ listings, crawl_company_details env listings today =
      listings.filterMap (fun l => fetch_one_detail (env l) l today) := by
    intro listings
    rw [crawl_company_details, crawlDetailsGo_spec]
    simp
  refine ⟨?_, hform, ?_, ?_⟩
  · intro l hfail
    rcases hfail with ⟨e, he⟩ | he | he
    · cases hl : l.externalPath <;> simp [fetch_one_detail, hl, he]
    · cases hl : l.externalPath <;> simp [fetch_one_detail, hl, he]
    · simp [fetch_one_detail, he]
  · intro listings
    rw [crawlDetailsGo_spec]
    simp
  · intro pre post l hnone
    rw [hform, hform, List.filterMap_append, List.filterMap_append,
      List.filterMap_cons, hnone]

/-- An environment where exactly the stub with path /job/x2 fails. -/
def envOneFail : Listing → Except String (Option Detail) :=
  fun l =>
    if l.externalPath = some "/job/x2" then .error "connection dropped"
    else .ok (some detailGarbled)

def stubA : Listing := ⟨some "/job/x1", some "A", none, some "Posted Today"⟩
def stubB : Listing := ⟨some "/job/x2", some "B", none, some "Posted Today"⟩
def stubC : Listing := ⟨some "/job/x3", some "C", none, some "Posted Today"⟩

theorem claim_C9_witness :
    fetch_one_detail (envOneFail stubB) stubB ⟨2024, 5, 2⟩ = none ∧
    crawl_company_details envOneFail [stubA, stubB, stubC] ⟨2024, 5, 2⟩ =
      [buildRecord detailGarbled stubA "/job/x1",
        buildRecord detailGarbled stubC "/job/x3"] ∧
    (crawlDetailsGo envOneFail ⟨2024, 5, 2⟩ [stubA, stubB, stubC] [] 0).done = 3 ∧
    crawl_company_details envOneFail [stubA, stubB, stubC] ⟨2024, 5, 2⟩ =
      crawl_company_details envOneFail [stubA, stubC] ⟨2024, 5, 2⟩ := by
  have h := claim_C9_worker_failure_isolated envOneFail ⟨2024, 5, 2⟩
  refine ⟨h.1 stubB (Or.inl ⟨"connection dropped", by decide⟩), ?_, ?_, ?_⟩
  · rw [h.2.1 [stubA, stubB, stubC]]; decide
  · exact h.2.2.1 [stubA, stubB, stubC]
  · exact h.2.2.2 [stubA] [stubC] stubB
      (h.1 stubB (Or.inl ⟨"connection dropped", by decide⟩))

/- ── C7: the site resolver ── -/

/-- The failure condition the claim describes: no hostname, a hostname not
containing the platform domain, a subdomain not matching the tenant
pattern, or no path segment left after skipping locale segments. -/
def resolverFails (url : String) : Bool :=
  match urlHost url with
  | none => true
  | some host =>
    !(containsSub "myworkdayjobs.com".toList host.toList) ||
    (tenantMatch host).isNone || (nonLocaleSegs url).isEmpty

/-- Claim C7: the site resolver is a pure function failing exactly when the
hostname does not belong to the platform domain, or the subdomain does not
match the tenant pattern, or no path segment remains after skipping locale
segments (two lowercase letters, a hyphen, two uppercase letters);
otherwise it returns the subdomain prefix as tenant and the first
remaining non-locale path segment as the site identifier, as on the
worked example URL. -/
theorem claim_C7_site_resolver :
    (∀ url, parse_workday_url url = none ↔ resolverFails url = true) ∧
    (∀ url h t s, parse_workday_url url = some ⟨h, t, s⟩ →
      urlHost url = some h ∧
      tenantMatch h = some t ∧ (nonLocaleSegs url).head? = some s) ∧
    parse_workday_url "https://acme.wd5.myworkdayjobs.com/en-US/external_site?q=1" =
      some ⟨"acme.wd5.myworkdayjobs.com", "acme", "external_site"⟩ := by
  refine ⟨?_, ?_, by decide⟩
  · intro url
    rw [parse_workday_url, resolverFails]
    cases hh : urlHost url with
    | none => simp
    | some host =>
      dsimp only
      cases hcb : containsSub "myworkdayjobs.com".toList host.toList with
      | false => simp
      | true =>
        rw [if_neg (by simp)]
        cases ht : tenantMatch host with
        | none => simp
        | some tenant =>
          cases hs : nonLocaleSegs url with
          | nil => simp
          | cons site rest => simp
  · intro url h t s hok
    rw [parse_workday_url] at hok
    cases hh : urlHost url with
    | none => rw [hh] at hok; exact Option.noConfusion hok
    | some host =>
      rw [hh] at hok
      dsimp only at hok
      by_cases hc : containsSub "myworkdayjobs.com".toList host.toList = false
      · rw [if_pos hc] at hok; exact Option.noConfusion hok
      · rw [if_neg hc] at hok
        cases ht : tenantMatch host with
        | none => rw [ht] at hok; exact Option.noConfusion hok
        | some tenant =>
          rw [ht] at hok
          dsimp only at hok
          cases hs : nonLocaleSegs url with
          | nil => rw [hs] at hok; exact Option.noConfusion hok
          | cons site rest =>
            rw [hs] at hok
            dsimp only at hok
            have hinj := Option.some.inj hok
            rw [SiteCoordinates.mk.injEq] at hinj
            obtain ⟨hh2, ht2, hs2⟩ := hinj
            subst hh2; subst ht2; subst hs2
            exact ⟨rfl, ht, rfl⟩

theorem claim_C7_witness :
    parse_workday_url "https://acme.wd5.myworkdayjobs.com/en-US/external_site?q=1" =
      some ⟨"acme.wd5.myworkdayjobs.com", "acme", "external_site"⟩ ∧
    parse_workday_url "https://careers.example.com/en-US/site" = none ∧
    parse_workday_url "https://acme.wd5.myworkdayjobs.com/en-US/" = none ∧
    resolverFails "https://acme.wd5.myworkdayjobs.com/en-US/" = true := by
  refine ⟨claim_C7_site_resolver.2.2, by decide, ?_, by decide⟩
  exact (claim_C7_site_resolver.1 "https://acme.wd5.myworkdayjobs.com/en-US/").2
    (by decide)

/- ── C4, C5: the retrying client ── -/

lemma retryGo_attempts_le (attempts : Nat → Attempt α) :
    ∀ (fuel k : Nat) (ws : List Nat),
      (retryGo attempts k fuel ws).attemptsMade ≤ k + fuel := by
  intro fuel
  induction fuel with
  | zero => intro k ws; simp [retryGo]
  | succ n ih =>
    intro k ws
    rw [retryGo]
    cases attempts k with
    | success a => dsimp only; omega
    | httpError s =>
      dsimp only
      by_cases hr : s = 429 ∨ 500 ≤ s
      · rw [if_pos hr]
        have := ih (k + 1) (ws ++ [2 ^ k * 2])
        omega
      · rw [if_neg hr]; dsimp only; omega
    | transportError m =>
      dsimp only
      by_cases hf : n = 0
      · rw [if_pos hf]; dsimp only; omega
      · rw [if_neg hf]
        have := ih (k + 1) (ws ++ [2 ^ k * 2])
        omega

lemma retryGo_retry_only (attempts : Nat → Attempt α) :
    ∀ (fuel k : Nat) (ws : List Nat) (j : Nat), k ≤ j →
      j + 1 < (retryGo attempts k fuel ws).attemptsMade →
      retryableAttempt (attempts j) := by
  intro fuel
  induction fuel with
  | zero => intro k ws j hkj hlt; simp [retryGo] at hlt; omega
  | succ n ih =>
    intro k ws j hkj hlt
    rw [retryGo] at hlt
    cases ha : attempts k with
    | success a => rw [ha] at hlt; simp at hlt; omega
    | httpError s =>
      rw [ha] at hlt
      dsimp only at hlt
      by_cases hr : s = 429 ∨ 500 ≤ s
      · rw [if_pos hr] at hlt
        rcases Nat.eq_or_lt_of_le hkj with heq | hgt
        · subst heq; exact Or.inl ⟨s, ha, hr⟩
        · exact ih (k + 1) (ws ++ [2 ^ k * 2]) j hgt hlt
      · rw [if_neg hr] at hlt; simp at hlt; omega
    | transportError m =>
      rw [ha] at hlt
      dsimp only at hlt
      by_cases hf : n = 0
      · rw [if_pos hf] at hlt; simp at hlt; omega
      · rw [if_neg hf] at hlt
        rcases Nat.eq_or_lt_of_le hkj with heq | hgt
        · subst heq; exact Or.inr ⟨m, ha⟩
        · exact ih (k + 1) (ws ++ [2 ^ k * 2]) j hgt hlt

lemma waits_snoc_prop {ws : List Nat} {k : Nat} (hlen : ws.length = k)
    (hprev : ∀ i w, ws[i]? = some w → w = 2 ^ i * 2) :
    ∀ i w, (ws ++ [2 ^ k * 2])[i]? = some w → w = 2 ^ i * 2 := by
  intro i w hi
  rcases lt_trichotomy i ws.length with h | h | h
  · rw [List.getElem?_append_left h] at hi
    exact hprev i w hi
  · rw [h, List.getElem?_concat_length] at hi
    have hw : w = 2 ^ k * 2 := (Option.some.inj hi).symm
    rw [hw, h, hlen]
  · have hnone : (ws ++ [2 ^ k * 2])[i]? = none := by
      apply List.getElem?_eq_none
      simp
      omega
    rw [hnone] at hi
    exact Option.noConfusion hi

lemma retryGo_waits (attempts : Nat → Attempt α) :
    ∀ (fuel k : Nat) (ws : List Nat), ws.length = k →
      (∀ i w, ws[i]? = some w → w = 2 ^ i * 2) →
      ∀ i w, (retryGo attempts k fuel ws).waits[i]? = some w → w = 2 ^ i * 2 := by
  intro fuel
  induction fuel with
  | zero => intro k ws hlen hprev; simp [retryGo]; exact fun i w h => hprev i w h
  | succ n ih =>
    intro k ws hlen hprev
    rw [retryGo]
    cases attempts k with
    | success a => exact fun i w h => hprev i w h
    | httpError s =>
      dsimp only
      by_cases hr : s = 429 ∨ 500 ≤ s
      · rw [if_pos hr]
        exact ih (k + 1) (ws ++ [2 ^ k * 2]) (by simp [hlen])
          (waits_snoc_prop hlen hprev)
      · rw [if_neg hr]
        exact fun i w h => hprev i w h
    | transportError m =>
      dsimp only
      by_cases hf : n = 0
      · rw [if_pos hf]
        exact waits_snoc_prop hlen hprev
      · rw [if_neg hf]
        exact ih (k + 1) (ws ++ [2 ^ k * 2]) (by simp [hlen])
          (waits_snoc_prop hlen hprev)

lemma retry_http_exhaust (attempts : Nat → Attempt α)
    (h : ∀ k, retryableHttpAttempt (attempts k)) :
    request_with_retry attempts = ⟨.ok none, 3, [2, 4, 8]⟩ := by
  obtain ⟨s0, hs0, hr0⟩ := h 0
  obtain ⟨s1, hs1, hr1⟩ := h 1
  obtain ⟨s2, hs2, hr2⟩ := h 2
  rw [request_with_retry, MAX_RETRIES, retryGo, hs0]
  dsimp only
  rw [if_pos hr0, retryGo, hs1]
  dsimp only
  rw [if_pos hr1, retryGo, hs2]
  dsimp only
  rw [if_pos hr2, retryGo]
  norm_num

lemma retry_transport_exhaust (f : Nat → String) (attempts : Nat → Attempt α)
    (h : ∀ k, attempts k = .transportError (f k)) :
    request_with_retry attempts = ⟨.error (.transport (f 2)), 3, [2, 4, 8]⟩ := by
  rw [request_with_retry, MAX_RETRIES, retryGo, h 0]
  dsimp only
  rw [if_neg (by omega), retryGo, h 1]
  dsimp only
  rw [if_neg (by omega), retryGo, h 2]
  dsimp only
  rw [if_pos rfl]
  norm_num

/-- The concrete network behaviour the claim describes: every attempt gets
an HTTP 503. -/
def attempts503 : Nat → Attempt Unit := fun _ => .httpError 503

/-- A network behaviour with a plain 404 on the first attempt. -/
def attempts404 : Nat → Attempt Unit := fun _ => .httpError 404

/-- Claim C4: the retrying client makes at most 3 total attempts; a retry
happens only after HTTP 429, HTTP at least 500, or a transport failure;
every backoff sleep after attempt k lasts 2 ^ k * 2 seconds; on a URL
returning HTTP 503 on every attempt exactly 3 attempts are made, with the
sleeps 2, 4, 8, so at least 2 seconds pass before attempt 2 and at least 4
before attempt 3; any other 4xx error fails on the first attempt,
surfacing the HTTP status. -/
theorem claim_C4_retry_policy :
    (∀ (α : Type) (attempts : Nat → Attempt α),
      (request_with_retry attempts).attemptsMade ≤ 3) ∧
    (∀ (α : Type) (attempts : Nat → Attempt α) (k : Nat),
      k + 1 < (request_with_retry attempts).attemptsMade →
      retryableAttempt (attempts k)) ∧
    (∀ (α : Type) (attempts : Nat → Attempt α) (k w : Nat),
      (request_with_retry attempts).waits[k]? = some w → w = 2 ^ k * 2) ∧
    request_with_retry attempts503 = ⟨.ok none, 3, [2, 4, 8]⟩ ∧
    (∀ (α : Type) (attempts : Nat → Attempt α) (s : Nat),
      attempts 0 = .httpError s → 400 ≤ s → s ≠ 429 → s < 500 →
      request_with_retry attempts = ⟨.error (.http s), 1, []⟩) := by
  refine ⟨?_, ?_, ?_, ?_, ?_⟩
  · intro α attempts
    exact retryGo_attempts_le attempts 3 0 []
  · intro α attempts k hk
    exact retryGo_retry_only attempts 3 0 [] k (Nat.zero_le k) hk
  · intro α attempts k w hw
    exact retryGo_waits attempts 3 0 [] rfl (by intro i w h; simp at h) k w hw
  · exact retry_http_exhaust attempts503 (fun k => ⟨503, rfl, by norm_num⟩)
  · intro α attempts s h0 _ h429 h500
    have hcond : ¬(s = 429 ∨ 500 ≤ s) := by omega
    rw [request_with_retry, MAX_RETRIES, retryGo, h0]
    dsimp only
    rw [if_neg hcond]

theorem claim_C4_witness :
    (request_with_retry attempts503).attemptsMade ≤ 3 ∧
    request_with_retry attempts503 = ⟨.ok none, 3, [2, 4, 8]⟩ ∧
    request_with_retry attempts404 = ⟨.error (.http 404), 1, []⟩ := by
  refine ⟨claim_C4_retry_policy.1 Unit attempts503, claim_C4_retry_policy.2.2.2.1, ?_⟩
  exact claim_C4_retry_policy.2.2.2.2 Unit attempts404 404 rfl (by norm_num)
    (by norm_num) (by norm_num)

/-- Counterexample to claim C5 as stated: with HTTP 503 on every attempt
the retryable cause persists through all 3 attempts, yet the client does
not raise — it falls out of the retry loop and returns None, a non-error
value. -/
theorem claim_C5_counterexample :
    request_with_retry attempts503 = ⟨.ok none, 3, [2, 4, 8]⟩ ∧
    (request_with_retry attempts503).result = .ok none ∧
    (request_with_retry attempts503).attemptsMade = 3 := by decide

/-- Claim C5 as amended: when the persistent cause is a transport-level
failure, the client raises on the final attempt, carrying the last
observed cause; when the persistent cause is a retryable HTTP status (429
or at least 500), the client instead returns None, a non-error value,
after exhausting its retries. -/
theorem claim_C5_amended :
    (∀ (α : Type) (f : Nat → String) (attempts : Nat → Attempt α),
      (∀ k, attempts k = .transportError (f k)) →
      request_with_retry attempts = ⟨.error (.transport (f 2)), 3, [2, 4, 8]⟩) ∧
    (∀ (α : Type) (attempts : Nat → Attempt α),
      (∀ k, retryableHttpAttempt (attempts k)) →
      request_with_retry attempts = ⟨.ok none, 3, [2, 4, 8]⟩) := by
  exact ⟨fun α f attempts h => retry_transport_exhaust f attempts h,
    fun α attempts h => retry_http_exhaust attempts h⟩

/-- A network behaviour whose every attempt fails at transport level. -/
def attemptsConnReset : Nat → Attempt Unit :=
  fun k => .transportError (if k = 2 then "conn reset final" else "conn reset")

theorem claim_C5_witness :
    request_with_retry attemptsConnReset =
      ⟨.error (.transport "conn reset final"), 3, [2, 4, 8]⟩ ∧
    request_with_retry attempts503 = ⟨.ok none, 3, [2, 4, 8]⟩ := by
  constructor
  · exact claim_C5_amended.1 Unit
      (fun k => if k = 2 then "conn reset final" else "conn reset")
      attemptsConnReset (fun k => rfl)
  · exact claim_C5_amended.2 Unit attempts503 (fun k => ⟨503, rfl, by norm_num⟩)

/- ── C3, C6: pagination ── -/

lemma fetchAllGo_eq_spec (ps : Nat) (hps : 0 < ps) :
    ∀ (resps : List FetchOutcome) (pd : Nat) (tot? : Option Nat) (acc : List Listing),
      fetchAllGo ps resps (pd * ps) tot? acc =
        Except.map (fun xs => acc ++ xs) (discoverSpecGo ps resps pd tot?) := by
  intro resps
  induction resps with
  | nil => intro pd tot? acc; simp [fetchAllGo, discoverSpecGo, Except.map]
  | cons r rest ih =>
    intro pd tot? acc
    cases r with
    | raise e => simp [fetchAllGo, discoverSpecGo, Except.map]
    | json op =>
      cases op with
      | none => simp [fetchAllGo, discoverSpecGo, Except.map]
      | some page =>
        rw [fetchAllGo, discoverSpecGo]
        dsimp only
        by_cases h1 : page.jobPostings = []
        · rw [if_pos h1, if_pos h1]
          simp [Except.map]
        · rw [if_neg h1, if_neg h1]
          have harith : (pd * ps + ps > ps) ↔ 1 ≤ pd := by
            constructor
            · intro hgt
              rcases Nat.eq_zero_or_pos pd with h0 | h1p
              · rw [h0, Nat.zero_mul] at hgt
                exact absurd hgt (by omega)
              · exact h1p
            · intro h1p
              have hle : 1 * ps ≤ pd * ps := Nat.mul_le_mul_right ps h1p
              rw [Nat.one_mul] at hle
              omega
          have hcond : ((page.jobPostings.filter isToday).length = 0 ∧
              pd * ps + ps > ps) ↔
              (page.jobPostings.filter isToday = [] ∧ 1 ≤ pd) :=
            and_congr List.length_eq_zero harith
          have hsm : (pd + 1) * ps = pd * ps + ps := Nat.succ_mul pd ps
          by_cases hstop : page.jobPostings.filter isToday = [] ∧ 1 ≤ pd
          · rw [if_pos (hcond.mpr hstop), if_pos hstop]
            simp [Except.map]
          · rw [if_neg (fun hh => hstop (hcond.mp hh)), if_neg hstop, hsm]
            by_cases htot : tot?.getD page.total ≤ pd * ps + ps
            · rw [if_pos htot, if_pos htot]
              simp [Except.map]
            · rw [if_neg htot, if_neg htot, ← hsm, ih (pd + 1) (some (tot?.getD page.total))
                (acc ++ page.jobPostings.filter isToday)]
              cases discoverSpecGo ps rest (pd + 1) (some (tot?.getD page.total)) with
              | ok xs => simp [Except.map, List.append_assoc]
              | error e => simp [Except.map]

/-- A listing card labeled Posted Today, distinguished by its path. -/
def mkToday (i : Nat) : Listing :=
  ⟨some (String.mk (List.replicate i 'a')), some "T", none, some "Posted Today"⟩

/-- A listing card with an older label. -/
def mkOld (i : Nat) : Listing :=
  ⟨some (String.mk (List.replicate i 'b')), some "T", none, some "Posted Earlier"⟩

/-- Another family of today-labeled cards, disjoint from mkToday. -/
def mkToday2 (i : Nat) : Listing :=
  ⟨some (String.mk (List.replicate i 'c')), some "T", none, some "Posted Today"⟩

/-- Page 1 of the worked example: 20 items, 10 of them Posted Today. -/
def pageOne : ListingPage :=
  ⟨200, (List.range 10).map mkToday ++ (List.range 10).map mkOld⟩

/-- Page 2 of the worked example: a full page with zero Posted Today. -/
def pageTwoZero : ListingPage := ⟨200, (List.range 20).map mkOld⟩

/-- A later page that still contains today-labeled items. -/
def pageThree : ListingPage := ⟨200, (List.range 5).map mkToday2⟩

/-- The response sequence of the worked example in the claim, extended by a
third page to show that pagination really stops after page 2. -/
def pagesEx : List FetchOutcome :=
  [.json (some pageOne), .json (some pageTwoZero), .json (some pageThree)]

/-- A page after the first that is nonempty but not full (5 of 20 slots)
and contains zero today-labeled items. -/
def pageTwoPartial : ListingPage := ⟨200, (List.range 5).map mkOld⟩

/-- The response sequence separating the code from the claim as stated:
the partial page 2 has zero today items, and page 3 has today items. -/
def pagesCX3 : List FetchOutcome :=
  [.json (some pageOne), .json (some pageTwoPartial), .json (some pageThree)]

/-- Counterexample to claim C3 as stated: the code stops early on any
nonempty page after the first with zero today-labeled items, not only on a
full one.  On pagesCX3 the code returns only the 10 stubs of page 1, while
a paginator that stops early only on full pages (the claim as written,
discoverTodaysFullPage) would also fetch page 3 and return its 5
today-labeled stubs as well. -/
theorem claim_C3_counterexample :
    fetch_all_listings 20 pagesCX3 = .ok ((List.range 10).map mkToday) ∧
    discoverTodaysFullPage 20 pagesCX3 =
      .ok ((List.range 10).map mkToday ++ (List.range 5).map mkToday2) ∧
    fetch_all_listings 20 pagesCX3 ≠ discoverTodaysFullPage 20 pagesCX3 := by
  refine ⟨by decide, by decide, by decide⟩

/-- Claim C3 as amended: pagination retains exactly the items labeled
Posted Today and stops when a page is empty, when a nonempty page after
the first contains zero today-labeled items, or when the offset reaches
the total learned from the first page; the code paginator equals this
description for every positive page size, and on the worked example (page
1 with 20 items of which 10 today, page 2 full with 0 today) it stops
after page 2 and returns exactly the 10 today-labeled stubs of page 1,
even when a later page holds more today-labeled items. -/
theorem claim_C3_amended :
    (∀ (pageSize : Nat), 0 < pageSize → ∀ responses,
      fetch_all_listings pageSize responses = discoverTodaysSpec pageSize responses) ∧
    fetch_all_listings 20 pagesEx = .ok ((List.range 10).map mkToday) := by
  constructor
  · intro ps hps resps
    rw [fetch_all_listings, discoverTodaysSpec]
    have h := fetchAllGo_eq_spec ps hps resps 0 none []
    rw [Nat.zero_mul] at h
    rw [h]
    cases discoverSpecGo ps resps 0 none <;> simp [Except.map]
  · decide

theorem claim_C3_witness :
    (0 : Nat) < 20 ∧
    fetch_all_listings 20 pagesEx = discoverTodaysSpec 20 pagesEx ∧
    fetch_all_listings 20 pagesEx = .ok ((List.range 10).map mkToday) := by
  exact ⟨by norm_num, claim_C3_amended.1 20 (by norm_num) pagesEx, claim_C3_amended.2⟩

/-- Every attempt of the page-2 request gets an HTTP 503. -/
def attempts503LP : Nat → Attempt (Option ListingPage) := fun _ => .httpError 503

/-- Every attempt of the page-2 request fails at transport level. -/
def attemptsTimeoutLP : Nat → Attempt (Option ListingPage) :=
  fun k => .transportError (if k = 2 then "timed out" else "retrying")

/-- A pagination whose second page request exhausts its retries on
transport failures and therefore raises. -/
def pagesCX6 : List FetchOutcome :=
  [.json (some pageOne), pageOutcome attemptsTimeoutLP]

def exceptIsOk {ε α : Type} : Except ε α → Bool
  | .ok _ => true
  | .error _ => false

/-- Counterexample to claim C6 as stated: when the page request exhausts
its retries on transport-level failures the underlying client raises, and
the pagination loop propagates the exception instead of returning the 10
stubs already collected from page 1. -/
theorem claim_C6_counterexample :
    request_with_retry attemptsTimeoutLP =
      ⟨.error (.transport "timed out"), 3, [2, 4, 8]⟩ ∧
    fetch_all_listings 20 pagesCX6 = .error "timed out" ∧
    exceptIsOk (fetch_all_listings 20 pagesCX6) = false := by decide

/-- Claim C6 as amended: when a page request exhausts its retries on HTTP
429 or HTTP at least 500, the client returns None and pagination ends
normally with exactly the stubs already collected; when the exhausted
cause is a transport-level failure, the client raises and the pagination
loop propagates the error instead of returning the collected stubs. -/
theorem claim_C6_amended :
    (∀ (pageSize : Nat) (rest : List FetchOutcome) (offset : Nat)
        (tot? : Option Nat) (acc : List Listing)
        (attempts : Nat → Attempt (Option ListingPage)),
      (∀ k, retryableHttpAttempt (attempts k)) →
      fetchAllGo pageSize (pageOutcome attempts :: rest) offset tot? acc = .ok acc) ∧
    (∀ (pageSize : Nat) (rest : List FetchOutcome) (offset : Nat)
        (tot? : Option Nat) (acc : List Listing) (f : Nat → String)
        (attempts : Nat → Attempt (Option ListingPage)),
      (∀ k, attempts k = .transportError (f k)) →
      fetchAllGo pageSize (pageOutcome attempts :: rest) offset tot? acc =
        .error (f 2)) := by
  constructor
  · intro ps rest offset tot? acc attempts h
    have hpo : pageOutcome attempts = .json none := by
      rw [pageOutcome, retry_http_exhaust attempts h]
    rw [hpo, fetchAllGo]
  · intro ps rest offset tot? acc f attempts h
    have hpo : pageOutcome attempts = .raise (f 2) := by
      rw [pageOutcome, retry_transport_exhaust f attempts h]
      rfl
    rw [hpo, fetchAllGo]

theorem claim_C6_witness :
    fetchAllGo 20 [pageOutcome attempts503LP] 20 (some 200)
      ((List.range 10).map mkToday) = .ok ((List.range 10).map mkToday) ∧
    fetchAllGo 20 [pageOutcome attemptsTimeoutLP] 20 (some 200)
      ((List.range 10).map mkToday) = .error "timed out" := by
  constructor
  · exact claim_C6_amended.1 20 [] 20 (some 200) ((List.range 10).map mkToday)
      attempts503LP (fun k => ⟨503, rfl, by norm_num⟩)
  · exact claim_C6_amended.2 20 [] 20 (some 200) ((List.range 10).map mkToday)
      (fun k => if k = 2 then "timed out" else "retrying") attemptsTimeoutLP
      (fun k => rfl)

/- ── C2, C8, C10: the run orchestrator ── -/

lemma crawlCount_eq (c : Company) :
    (if (parse_workday_url c.workday_url).isSome then 1 else 0) = crawlCount c := by
  rw [crawlCount]
  cases parse_workday_url c.workday_url <;> simp

lemma scanOneCompany_spec (live : RunLive) (c : Company) :
    scanOneCompany live c =
      ⟨⟨live.status, live.jobs_found + liveFound c,
          live.jobs_returned + liveReturned c,
          live.errors ++ (expectedError c).toList, live.companies_done⟩,
        contribFound c, contribReturned c, expectedWrite c,
        (parse_workday_url c.workday_url).isSome⟩ := by
  rw [scanOneCompany]
  cases hp : parse_workday_url c.workday_url with
  | none =>
    simp [hp, expectedWrite, expectedError, contribFound, contribReturned,
      liveFound, liveReturned]
  | some coords =>
    cases hc : c.crawl with
    | raises e =>
      simp [hp, hc, expectedWrite, expectedError, contribFound, contribReturned,
        liveFound, liveReturned]
    | jobs n =>
      cases hpost : c.post with
      | raises e =>
        simp [hp, hc, hpost, expectedWrite, expectedError, contribFound,
          contribReturned, liveFound, liveReturned]
      | returns r =>
        simp [hp, hc, hpost, expectedWrite, expectedError, contribFound,
          contribReturned, liveFound, liveReturned]

lemma runLoop_spec :
    ∀ (cs : List Company) (live : RunLive) (tf tr : Nat) (ws : List String) (ca : Nat),
      runLoop cs live tf tr ws ca =
        ⟨⟨live.status, live.jobs_found + (cs.map liveFound).sum,
            live.jobs_returned + (cs.map liveReturned).sum,
            live.errors ++ cs.filterMap expectedError,
            live.companies_done + cs.length⟩,
          tf + (cs.map contribFound).sum, tr + (cs.map contribReturned).sum,
          ws ++ cs.map expectedWrite, ca + (cs.map crawlCount).sum⟩ := by
  intro cs
  induction cs with
  | nil => intro live tf tr ws ca; simp [runLoop]
  | cons c rest ih =>
    intro live tf tr ws ca
    rw [runLoop]
    dsimp only
    rw [scanOneCompany_spec]
    dsimp only
    rw [crawlCount_eq, ih]
    dsimp only
    rw [LoopRes.mk.injEq, RunLive.mk.injEq]
    cases he : expectedError c <;>
      simp [he, List.filterMap_cons, List.sum_cons, List.append_assoc] <;>
      omega

/-- Claim C2: for every run whose preconditions hold, each employer whose
scan raises (during crawl, filtering, scoring or persistence) is contained
at the employer boundary: its status write is the error message truncated
to 100 characters, it contributes (0, 0) to the persisted totals, it adds
one run-level error entry, and the run still finalizes as done, with the
totals summing only the successful employers. -/
theorem claim_C2_employer_error_containment (cs : List Company) (hcs : cs ≠ []) :
    (run_scanner cs (some ())).live.status = "done" ∧
    (run_scanner cs (some ())).persisted.status = "done" ∧
    (run_scanner cs (some ())).statusWrites = cs.map expectedWrite ∧
    (run_scanner cs (some ())).persisted.total_jobs_found =
      (cs.map contribFound).sum ∧
    (run_scanner cs (some ())).persisted.total_jobs_returned =
      (cs.map contribReturned).sum ∧
    (run_scanner cs (some ())).live.errors = cs.filterMap expectedError := by
  rw [run_scanner.eq_def]
  rw [if_neg hcs]
  dsimp only
  rw [runLoop_spec]
  dsimp only
  simp

/-- The three employers of the worked example: the second one raises in
mid-enrichment. -/
def compAcme : Company :=
  ⟨"Acme", "https://acme.wd5.myworkdayjobs.com/ext", .jobs 7, .returns 3⟩

def compBeta : Company :=
  ⟨"Beta", "https://beta.wd3.myworkdayjobs.com/jobs", .raises "boom mid enrichment",
    .returns 0⟩

def compGamma : Company :=
  ⟨"Gamma", "https://gamma.wd1.myworkdayjobs.com/careers", .jobs 5, .returns 2⟩

def cs3 : List Company := [compAcme, compBeta, compGamma]

theorem claim_C2_witness :
    (run_scanner cs3 (some ())).persisted.status = "done" ∧
    (run_scanner cs3 (some ())).statusWrites =
      ["success", "error: boom mid enrichment", "success"] ∧
    (run_scanner cs3 (some ())).persisted.total_jobs_found = 12 ∧
    (run_scanner cs3 (some ())).persisted.total_jobs_returned = 5 ∧
    (run_scanner cs3 (some ())).live.errors = ["Beta: boom mid enrichment"] := by
  obtain ⟨h1, h2, h3, h4, h5, h6⟩ :=
    claim_C2_employer_error_containment cs3 (by decide)
  refine ⟨h2, ?_, ?_, ?_, ?_⟩
  · rw [h3]; decide
  · rw [h4]; decide
  · rw [h5]; decide
  · rw [h6]; decide

/-- Claim C8: a run started with zero employers, or with no reference
profile, transitions directly to the error terminal state with a
precondition message: no per-employer status is ever written and no
crawl is attempted. -/
theorem claim_C8_precondition_abort :
    (∀ resume : Option Unit,
      run_scanner [] resume =
        ⟨⟨"error", 0, 0, [], 0⟩, ⟨"error", 0, 0, some "No companies loaded"⟩,
          [], 0⟩) ∧
    (∀ cs : List Company,
      (run_scanner cs none).statusWrites = [] ∧
      (run_scanner cs none).crawls = 0 ∧
      (run_scanner cs none).persisted.status = "error" ∧
      (run_scanner cs none).live.status = "error" ∧
      ((run_scanner cs none).persisted.error_log = some "No companies loaded" ∨
       (run_scanner cs none).persisted.error_log = some "No resume uploaded")) := by
  constructor
  · intro resume
    rw [run_scanner.eq_def, if_pos rfl]
  · intro cs
    by_cases h : cs = []
    · rw [run_scanner.eq_def, if_pos h]
      exact ⟨rfl, rfl, rfl, rfl, Or.inl rfl⟩
    · rw [run_scanner.eq_def, if_neg h]
      exact ⟨rfl, rfl, rfl, rfl, Or.inr rfl⟩

lemma sum_le_sum_pointwise {α : Type} (f g : α → Nat) :
    ∀ (l : List α), (∀ a ∈ l, f a ≤ g a) → (l.map f).sum ≤ (l.map g).sum := by
  intro l
  induction l with
  | nil => intro _; simp
  | cons b t ih =>
    intro h
    have hb := h b (by simp)
    have ht := ih (fun a ha => h a (by simp [ha]))
    simp [List.sum_cons]
    omega

lemma sum_lt_sum_of_mem {α : Type} (f g : α → Nat) :
    ∀ (l : List α), (∀ a ∈ l, f a ≤ g a) → ∀ a ∈ l, f a < g a →
      (l.map f).sum < (l.map g).sum := by
  intro l
  induction l with
  | nil => intro _ a ha; simp at ha
  | cons b t ih =>
    intro hle a ha hlt
    rcases List.mem_cons.mp ha with rfl | hat
    · have ht := sum_le_sum_pointwise f g t (fun x hx => hle x (by simp [hx]))
      simp [List.sum_cons]
      omega
    · have hb := hle b (by simp)
      have ht := ih (fun x hx => hle x (by simp [hx])) a hat hlt
      simp [List.sum_cons]
      omega

lemma contribFound_le_liveFound (c : Company) : contribFound c ≤ liveFound c := by
  rw [contribFound, liveFound]
  cases parse_workday_url c.workday_url <;> cases c.crawl <;> cases c.post <;> simp

lemma contribFound_lt_liveFound (c : Company)
    (hp : (parse_workday_url c.workday_url).isSome = true)
    (hn : ∃ n, c.crawl = .jobs n ∧ 0 < n) (he : ∃ e, c.post = .raises e) :
    contribFound c < liveFound c := by
  obtain ⟨n, hcn, hpos⟩ := hn
  obtain ⟨e, hpe⟩ := he
  cases hpp : parse_workday_url c.workday_url with
  | none => rw [hpp] at hp; simp at hp
  | some coords =>
    rw [contribFound, liveFound, hpp, hcn, hpe]
    simpa

/-- An employer whose crawl succeeds with zero jobs and whose later stage
raises: the live and persisted found totals agree, so the strict
inequality of claim C10 fails. -/
def compZed : Company :=
  ⟨"Zed", "https://zed.wd2.myworkdayjobs.com/site", .jobs 0, .raises "db write failed"⟩

/-- Counterexample to claim C10 as stated: this run has an employer whose
crawl succeeded and whose later stage raised, yet the live jobs_found
equals (does not strictly exceed) the persisted total, because the crawl
found zero jobs. -/
theorem claim_C10_counterexample :
    compZed.crawl = CrawlOutcome.jobs 0 ∧
    compZed.post = PostCrawlOutcome.raises "db write failed" ∧
    (parse_workday_url compZed.workday_url).isSome = true ∧
    (run_scanner [compZed] (some ())).live.jobs_found =
      (run_scanner [compZed] (some ())).persisted.total_jobs_found := by decide

/-- Claim C10 as amended: the persisted total_jobs_found is the sum of the
per-employer contributions (0 for a failing employer) while the live
jobs_found counter sums every successful crawl without rollback, so the
live counter is always at least the persisted total, and strictly exceeds
it whenever some employer with a successful crawl of at least one job has
a later stage raise. -/
theorem claim_C10_live_vs_persisted (cs : List Company) (hcs : cs ≠ []) :
    (run_scanner cs (some ())).live.jobs_found = (cs.map liveFound).sum ∧
    (run_scanner cs (some ())).persisted.total_jobs_found =
      (cs.map contribFound).sum ∧
    (run_scanner cs (some ())).persisted.total_jobs_found ≤
      (run_scanner cs (some ())).live.jobs_found ∧
    (∀ c ∈ cs, (parse_workday_url c.workday_url).isSome = true →
      (∃ n, c.crawl = .jobs n ∧ 0 < n) → (∃ e, c.post = .raises e) →
      (run_scanner cs (some ())).persisted.total_jobs_found <
        (run_scanner cs (some ())).live.jobs_found) := by
  have hrw : (run_scanner cs (some ())).live.jobs_found = (cs.map liveFound).sum ∧
      (run_scanner cs (some ())).persisted.total_jobs_found =
        (cs.map contribFound).sum := by
    rw [run_scanner.eq_def, if_neg hcs]
    dsimp only
    rw [runLoop_spec]
    dsimp only
    simp
  refine ⟨hrw.1, hrw.2, ?_, ?_⟩
  · rw [hrw.1, hrw.2]
    exact sum_le_sum_pointwise contribFound liveFound cs
      (fun c _ => contribFound_le_liveFound c)
  · intro c hc hp hn he
    rw [hrw.1, hrw.2]
    exact sum_lt_sum_of_mem contribFound liveFound cs
      (fun x _ => contribFound_le_liveFound x) c hc
      (contribFound_lt_liveFound c hp hn he)

/-- An employer whose crawl finds five jobs before the scoring stage
raises. -/
def compYps : Company :=
  ⟨"Ypsilon", "https://ups.wd4.myworkdayjobs.com/site", .jobs 5,
    .raises "score service down"⟩

theorem claim_C10_witness :
    (run_scanner [compYps] (some ())).persisted.total_jobs_found <
      (run_scanner [compYps] (some ())).live.jobs_found := by
  exact (claim_C10_live_vs_persisted [compYps] (by decide)).2.2.2 compYps
    (by simp) (by decide) (⟨5, rfl, by norm_num⟩) ⟨"score service down", rfl⟩

end JobFinder
